import Mathlib

/-!
Verification of the Silkify web application: a shallow embedding of the
style catalog (`src/shared/types.ts`), the validation schemas
(`src/shared/schema.ts`), the in-memory record store
(`src/server/storage.ts`), the OpenAI transformation pipeline
(`transformImage`) and the HTTP route handlers, together with proofs of
the behavioural properties stated in the specification.
-/

set_option autoImplicit false

namespace Silkify

/-! ## Style catalog (src/shared/types.ts) -/

/-- The five style identifiers, the TypeScript union type
`'lego' | 'anime' | 'ghibli' | 'futuristic' | 'vintage'`. -/
inductive Style where
  | lego
  | anime
  | ghibli
  | futuristic
  | vintage
  deriving DecidableEq, Repr

/-- The constant `STYLE_PROMPTS` from `src/shared/types.ts`: the prompt template for each
style identifier. -/
def STYLE_PROMPTS : Style → String
  | .lego => "Transform this image into a LEGO brick style artwork, with clear plastic brick textures, vibrant primary colors, and the characteristic blocky LEGO aesthetic. Make it look like it was built with actual LEGO bricks."
  | .anime => "Transform this image into a Japanese anime style illustration with vibrant colors, distinctive facial features like large expressive eyes, simplified details, and smooth outlines. Use the style commonly seen in popular anime."
  | .ghibli => "Transform this image into a Studio Ghibli style illustration with soft watercolor-like textures, muted pastel colors, delicate details in nature elements, and the dreamlike quality characteristic of Hayao Miyazaki's films."
  | .futuristic => "Transform this image into a sci-fi futuristic style with holographic elements, neon lighting, sleek metallic surfaces, advanced technology aesthetics, and a high-contrast color scheme dominated by blues and purples."
  | .vintage => "Transform this image into a vintage/retro style with faded colors, subtle film grain, slightly washed-out contrast, and the aged aesthetic of photographs from the 1960s-70s."

/-- The string literal of each member of the TypeScript style union. -/
def styleId : Style → String
  | .lego => "lego"
  | .anime => "anime"
  | .ghibli => "ghibli"
  | .futuristic => "futuristic"
  | .vintage => "vintage"

/-- The schema `styleTransformSchema` from `src/shared/schema.ts`:
`z.enum(['lego','anime','ghibli','futuristic','vintage'])` parses the
request's style string into a member of the union, failing on anything
else. -/
def styleOfString (s : String) : Option Style :=
  if s = "lego" then some .lego
  else if s = "anime" then some .anime
  else if s = "ghibli" then some .ghibli
  else if s = "futuristic" then some .futuristic
  else if s = "vintage" then some .vintage
  else none

/-- Lookup of `STYLE_PROMPTS` by a raw string key, as JavaScript object
indexing would behave: `undefined` (here `none`) for any key that is not
one of the five style identifiers. -/
def stylePromptsLookup (s : String) : Option String :=
  (styleOfString s).map STYLE_PROMPTS

/-! ## Transformation pipeline (src/server/openai.ts, `transformImage`) -/

/-- The fixed instruction text sent with the image to the vision model. -/
def visionInstruction : String :=
  "Describe this person and the overall scene in detail — include facial features, expression, clothing, posture, and background."

/-- The data URL wrapping of the uploaded base64 image, as built inline in
the vision request. -/
def dataUrl (imageBase64 : String) : String :=
  "data:image/jpeg;base64," ++ imageBase64

/-- The combined generation prompt built in STEP 2 of `transformImage`. -/
def finalPrompt (stylePrompt imageDescription : String) : String :=
  stylePrompt ++ "\n\nHere is the image content to transform:\n" ++ imageDescription ++ "\n\nPreserve the identity, pose, and scene layout while applying the style."

/-- JavaScript `String.prototype.trim`: strip leading and trailing whitespace, as an
executable definition over the string's characters. -/
def jsTrim (s : String) : String :=
  String.mk (((s.data.dropWhile Char.isWhitespace).reverse.dropWhile Char.isWhitespace).reverse)

/-- The two external capability providers consumed by `transformImage`,
treated as opaque functions of their inputs.

`describe` models `openai.chat.completions.create` for the vision call:
given the instruction text and the image data URL it either raises
(`Except.error` with the thrown message) or returns the value of
`visionResponse.choices[0].message.content`, which may be `null`
(`none`).

`generate` models `openai.images.generate`: given the prompt it either
raises or returns the value of `generatedImage.data?.[0]?.url`, which
may be absent (`none`). -/
structure Caps where
  describe : String → String → Except String (Option String)
  generate : String → Except String (Option String)

/-- A run of the pipeline: the outcome together with the arguments of
every call made to each external capability, in order. -/
structure PipelineRun where
  result : Except String String
  describeCalls : List (String × String)
  generateCalls : List String
  deriving Repr

/-- The body of the `try` block of `transformImage`, instrumented with the
calls made to the two capabilities.

STEP 1: call the vision model; take
`visionResponse.choices[0].message.content?.trim()` and throw
"Could not generate description from image." when it is `undefined`
(content was `null`) or falsy (empty after trimming).

STEP 2: build `finalPrompt`.

STEP 3: call the generation model; throw "Failed to generate image URL"
when `generatedImage.data?.[0]?.url` is absent; otherwise return the
URL. -/
def transformBody (caps : Caps) (imageBase64 : String) (style : Style) : PipelineRun :=
  let stylePrompt := STYLE_PROMPTS style
  let dCall := (visionInstruction, dataUrl imageBase64)
  match caps.describe visionInstruction (dataUrl imageBase64) with
  | .error e => ⟨.error e, [dCall], []⟩
  | .ok content =>
    match content with
    | none => ⟨.error "Could not generate description from image.", [dCall], []⟩
    | some raw =>
      let imageDescription := jsTrim raw
      if imageDescription = "" then
        ⟨.error "Could not generate description from image.", [dCall], []⟩
      else
        let prompt := finalPrompt stylePrompt imageDescription
        match caps.generate prompt with
        | .error e => ⟨.error e, [dCall], [prompt]⟩
        | .ok url? =>
          match url? with
          | none => ⟨.error "Failed to generate image URL", [dCall], [prompt]⟩
          | some imageUrl => ⟨.ok imageUrl, [dCall], [prompt]⟩

/-- The function `transformImage` from `src/server/openai.ts`, instrumented: the `try`
body, with every raised error caught at the function boundary and
re-thrown as
"Failed to transform image: " followed by the original message. -/
def transformImageRun (caps : Caps) (imageBase64 : String) (style : Style) : PipelineRun :=
  let run := transformBody caps imageBase64 style
  match run.result with
  | .ok url => { run with result := .ok url }
  | .error msg => { run with result := .error ("Failed to transform image: " ++ msg) }

/-- The outcome of `transformImage`: the returned URL or the thrown
error's message. -/
def transformImage (caps : Caps) (imageBase64 : String) (style : Style) : Except String String :=
  (transformImageRun caps imageBase64 style).result

/-! ## Upload validation (src/shared/schema.ts and the multer
configuration in the routes file) -/

/-- The issues produced by `imageUploadSchema` from `src/shared/schema.ts`
on a file of the given size and declared MIME type: the two zod
refinements run in the order written, the strict size bound
`file.size < 5 * 1024 * 1024` first, the MIME whitelist second, each
contributing its message when violated. -/
def imageUploadIssues (size : Nat) (mimeType : String) : List String :=
  (if size < 5 * 1024 * 1024 then [] else ["Image size should not exceed 5MB"]) ++
  (if mimeType ∈ ["image/jpeg", "image/png", "image/webp"] then [] else ["Please upload a valid image (JPG, PNG, WEBP)"])

/-- The schema `imageUploadSchema` accepts a file exactly when neither refinement
raises an issue. -/
def imageUploadSchemaAccepts (size : Nat) (mimeType : String) : Bool :=
  (imageUploadIssues size mimeType).isEmpty

/-- Character-list prefix test, the executable core of
`String.prototype.startsWith`. -/
def charsStartWith : List Char → List Char → Bool
  | [], _ => true
  | _ :: _, [] => false
  | a :: as, b :: bs => a == b && charsStartWith as bs

/-- JavaScript `String.prototype.startsWith`: does `s` begin with `pre`? -/
def strStartsWith (s pre : String) : Bool :=
  charsStartWith pre.data s.data

/-- The `fileFilter` callback of the multer configuration in the routes
file: reject non-`image/` MIME types, then reject image MIME types
outside the JPEG/PNG/WEBP whitelist, otherwise accept. -/
def multerFileFilter (mimetype : String) : Except String Unit :=
  if ¬ strStartsWith mimetype "image/" then .error "Only image files are allowed"
  else if mimetype ∉ ["image/jpeg", "image/png", "image/webp"] then .error "Please upload a valid image (JPG, PNG, WEBP)"
  else .ok ()

/-- Modelled from the multer library's documented semantics (multer is an
external dependency, its source is not part of this repository): the
configured `limits.fileSize` of `5 * 1024 * 1024` bytes is the maximum
allowed file size, so the limit admits a file exactly when its size does
not exceed that value. -/
def multerSizeAdmits (size : Nat) : Bool :=
  size ≤ 5 * 1024 * 1024

/-- The multer middleware of the routes file accepts a file exactly when
it passes both the size limit and the `fileFilter`. -/
def multerAccepts (size : Nat) (mimetype : String) : Bool :=
  multerSizeAdmits size &&
    (match multerFileFilter mimetype with
     | .ok _ => true
     | .error _ => false)

/-! ## Base64 encoding (Buffer.toString with these bytes, RFC 4648) -/

/-- The standard base64 alphabet used by Node's
`Buffer.prototype.toString` for the "base64" encoding. -/
def base64Alphabet : List Char :=
  "ABCDEFGHIJKLMNOPQRSTUVWXYZabcdefghijklmnopqrstuvwxyz0123456789+/".toList

/-- The alphabet character for a 6-bit value. -/
def base64Char (n : Nat) : Char :=
  base64Alphabet.getD n 'A'

/-- The 6-bit value of an alphabet character, absent for characters
outside the alphabet. -/
def base64Index (c : Char) : Option Nat :=
  base64Alphabet.indexOf? c

/-- Node `buffer.toString("base64")` on a byte sequence: each group of three
bytes becomes four alphabet characters, a trailing group of one or two
bytes is padded with `=`. -/
def encodeBase64Chars : List Nat → List Char
  | [] => []
  | [a] =>
    let n := a * 65536
    [base64Char (n / 262144), base64Char (n / 4096 % 64), '=', '=']
  | [a, b] =>
    let n := a * 65536 + b * 256
    [base64Char (n / 262144), base64Char (n / 4096 % 64), base64Char (n / 64 % 64), '=']
  | a :: b :: c :: rest =>
    let n := a * 65536 + b * 256 + c
    base64Char (n / 262144) :: base64Char (n / 4096 % 64) :: base64Char (n / 64 % 64) :: base64Char (n % 64) :: encodeBase64Chars rest

/-- The base64 encoding of a byte sequence, as a string. -/
def encodeBase64 (bytes : List Nat) : String :=
  String.mk (encodeBase64Chars bytes)

/-- Standard base64 decoding: the inverse of `encodeBase64Chars`, absent
on malformed input. -/
def decodeBase64Chars : List Char → Option (List Nat)
  | [] => some []
  | c1 :: c2 :: c3 :: c4 :: rest =>
    (match base64Index c1, base64Index c2 with
     | some i1, some i2 =>
       if c3 = '=' ∧ c4 = '=' ∧ rest = [] then
         some [(i1 * 262144 + i2 * 4096) / 65536]
       else if c4 = '=' ∧ rest = [] then
         (match base64Index c3 with
          | some i3 =>
            let n := i1 * 262144 + i2 * 4096 + i3 * 64
            some [n / 65536, n / 256 % 256]
          | none => none)
       else
         (match base64Index c3, base64Index c4, decodeBase64Chars rest with
          | some i3, some i4, some bytes =>
            let n := i1 * 262144 + i2 * 4096 + i3 * 64 + i4
            some (n / 65536 :: n / 256 % 256 :: n % 256 :: bytes)
          | _, _, _ => none)
     | _, _ => none)
  | _ => none

/-- Base64 decoding of a string. -/
def decodeBase64 (s : String) : Option (List Nat) :=
  decodeBase64Chars s.data

/-! ## HTTP route handlers (the routes file) -/

/-- The uploaded file as multer's memory storage hands it to the
`POST /api/upload` handler. -/
structure UploadedFile where
  buffer : List Nat
  originalname : String
  deriving DecidableEq, Repr

/-- The response of the `POST /api/upload` handler. -/
inductive UploadResult where
  | success (imageBase64 : String) (originalName : String)
  | badRequest (message : String)
  deriving DecidableEq, Repr

/-- The `POST /api/upload` handler: 400 when no file arrived, otherwise
200 with the base64 encoding of the uploaded buffer and the original
filename. -/
def uploadRoute (file? : Option UploadedFile) : UploadResult :=
  match file? with
  | none => .badRequest "No image file uploaded"
  | some file => .success (encodeBase64 file.buffer) file.originalname

/-- The response of the `POST /api/transform` handler. -/
inductive TransformResult where
  | success (transformedImageUrl : String)
  | badRequest (message : String)
  | serverError (message : String)
  deriving DecidableEq, Repr

/-- A run of the `POST /api/transform` handler: the response together with
the external capability calls made. -/
structure TransformRouteRun where
  response : TransformResult
  describeCalls : List (String × String)
  generateCalls : List String
  deriving Repr

/-- The `POST /api/transform` handler: parse the style with
`styleTransformSchema.safeParse` (400 "Invalid style selected" on
failure), reject an absent or empty `imageBase64` field
(400 "No image data provided"), then run `transformImage`; a thrown
error becomes a 500 carrying `error.message` (with a fallback when the
message is empty). -/
def transformRoute (caps : Caps) (style? imageBase64? : Option String) : TransformRouteRun :=
  match style?.bind styleOfString with
  | none => ⟨.badRequest "Invalid style selected", [], []⟩
  | some style =>
    match imageBase64? with
    | none => ⟨.badRequest "No image data provided", [], []⟩
    | some imageBase64 =>
      if imageBase64 = "" then ⟨.badRequest "No image data provided", [], []⟩
      else
        let run := transformImageRun caps imageBase64 style
        match run.result with
        | .ok url => ⟨.success url, run.describeCalls, run.generateCalls⟩
        | .error msg =>
          ⟨.serverError (if msg = "" then "Failed to transform image" else msg),
           run.describeCalls, run.generateCalls⟩

/-! ## In-memory record store (src/server/storage.ts) -/

/-- A stored `User` record. -/
structure User where
  id : Nat
  username : String
  password : String
  deriving DecidableEq, Repr

/-- The insert shape `InsertUser`: a user without its identifier. -/
structure InsertUser where
  username : String
  password : String
  deriving DecidableEq, Repr

/-- A stored `Image` record. -/
structure Image where
  id : Nat
  originalFilename : String
  originalUrl : String
  userId : Option Int
  createdAt : String
  deriving DecidableEq, Repr

/-- The insert shape `InsertImage`: an image without identifier and timestamp. -/
structure InsertImage where
  originalFilename : String
  originalUrl : String
  userId : Option Int
  deriving DecidableEq, Repr

/-- A stored `Transformation` record. -/
structure Transformation where
  id : Nat
  imageId : Nat
  style : String
  transformedUrl : String
  createdAt : String
  deriving DecidableEq, Repr

/-- The insert shape `InsertTransformation`: a transformation without identifier and
timestamp. -/
structure InsertTransformation where
  imageId : Nat
  style : String
  transformedUrl : String
  deriving DecidableEq, Repr

/-- JavaScript `Map.prototype.set`: overwrite in place when the key is present,
append otherwise (JavaScript maps preserve insertion order). -/
def mapSet {α : Type} (m : List (Nat × α)) (k : Nat) (v : α) : List (Nat × α) :=
  if (m.lookup k).isSome then
    m.map (fun p => if p.1 = k then (k, v) else p)
  else
    m ++ [(k, v)]

/-- The class `MemStorage`: three insertion-ordered keyed maps and the three
identifier counters, as initialised by the constructor. -/
structure MemStorage where
  users : List (Nat × User)
  images : List (Nat × Image)
  transformations : List (Nat × Transformation)
  userIdCounter : Nat
  imageIdCounter : Nat
  transformationIdCounter : Nat
  deriving Repr

/-- The `MemStorage` constructor: empty maps, all counters at 1. -/
def MemStorage.init : MemStorage :=
  ⟨[], [], [], 1, 1, 1⟩

/-- Method `getUser`: `this.users.get(id)`. -/
def MemStorage.getUser (s : MemStorage) (id : Nat) : Option User :=
  s.users.lookup id

/-- Method `getUserByUsername`: linear scan of the map's values in insertion
order. -/
def MemStorage.getUserByUsername (s : MemStorage) (username : String) : Option User :=
  (s.users.map Prod.snd).find? (fun user => user.username == username)

/-- Method `createUser`: take the next identifier, build the record, store it,
return it. -/
def MemStorage.createUser (s : MemStorage) (insertUser : InsertUser) : User × MemStorage :=
  let id := s.userIdCounter
  let user : User := { username := insertUser.username, password := insertUser.password, id := id }
  (user, { s with users := mapSet s.users id user, userIdCounter := id + 1 })

/-- Method `getImage`: `this.images.get(id)`. -/
def MemStorage.getImage (s : MemStorage) (id : Nat) : Option Image :=
  s.images.lookup id

/-- Method `createImage`: take the next identifier, stamp the creation timestamp
(`new Date().toISOString()`, passed here explicitly as `now`), store,
return. -/
def MemStorage.createImage (s : MemStorage) (insertImage : InsertImage) (now : String) : Image × MemStorage :=
  let id := s.imageIdCounter
  let image : Image :=
    { originalFilename := insertImage.originalFilename
      originalUrl := insertImage.originalUrl
      userId := insertImage.userId
      id := id
      createdAt := now }
  (image, { s with images := mapSet s.images id image, imageIdCounter := id + 1 })

/-- Method `getTransformation`: `this.transformations.get(id)`. -/
def MemStorage.getTransformation (s : MemStorage) (id : Nat) : Option Transformation :=
  s.transformations.lookup id

/-- Method `getTransformationsByImageId`: filter the map's values, in insertion
order, by the `imageId` field. -/
def MemStorage.getTransformationsByImageId (s : MemStorage) (imageId : Nat) : List Transformation :=
  (s.transformations.map Prod.snd).filter (fun transformation => transformation.imageId == imageId)

/-- Method `createTransformation`: take the next identifier, stamp the creation
timestamp, store, return. -/
def MemStorage.createTransformation (s : MemStorage) (insertTransformation : InsertTransformation) (now : String) : Transformation × MemStorage :=
  let id := s.transformationIdCounter
  let transformation : Transformation :=
    { imageId := insertTransformation.imageId
      style := insertTransformation.style
      transformedUrl := insertTransformation.transformedUrl
      id := id
      createdAt := now }
  (transformation, { s with transformations := mapSet s.transformations id transformation, transformationIdCounter := id + 1 })

/-- Sequential `createUser` calls: the created records in order, and the
final store. -/
def createUsers (s : MemStorage) : List InsertUser → List User × MemStorage
  | [] => ([], s)
  | u :: rest =>
    let (user, s1) := s.createUser u
    let (others, s2) := createUsers s1 rest
    (user :: others, s2)

/-- Sequential `createImage` calls, each with its own timestamp. -/
def createImages (s : MemStorage) : List (InsertImage × String) → List Image × MemStorage
  | [] => ([], s)
  | i :: rest =>
    let (image, s1) := s.createImage i.1 i.2
    let (others, s2) := createImages s1 rest
    (image :: others, s2)

/-- Sequential `createTransformation` calls, each with its own
timestamp. -/
def createTransformations (s : MemStorage) : List (InsertTransformation × String) → List Transformation × MemStorage
  | [] => ([], s)
  | t :: rest =>
    let (transformation, s1) := s.createTransformation t.1 t.2
    let (others, s2) := createTransformations s1 rest
    (transformation :: others, s2)

/-! ## Helper lemmas -/

/-- Decoding inverts the alphabet table on 6-bit values. -/
theorem base64Index_base64Char : ∀ n, n < 64 → base64Index (base64Char n) = some n := by
  decide

/-- No alphabet character is the padding character. -/
theorem base64Char_ne_pad : ∀ n, n < 64 → base64Char n ≠ '=' := by
  decide

/-- Base64 decoding inverts base64 encoding on byte sequences. -/
theorem decodeBase64Chars_encodeBase64Chars :
    ∀ (l : List Nat), (∀ x ∈ l, x < 256) →
      decodeBase64Chars (encodeBase64Chars l) = some l := by
  intro l
  induction l using encodeBase64Chars.induct with
  | case1 => intro _; rfl
  | case2 a =>
    intro h
    have ha : a < 256 := h a (by simp)
    simp only [encodeBase64Chars, decodeBase64Chars]
    rw [base64Index_base64Char _ (by omega), base64Index_base64Char _ (by omega)]
    simp only []
    rw [if_pos (by simp)]
    congr 1
    congr 1
    omega
  | case3 a b =>
    intro h
    have ha : a < 256 := h a (by simp)
    have hb : b < 256 := h b (by simp)
    simp only [encodeBase64Chars, decodeBase64Chars]
    rw [base64Index_base64Char _ (by omega), base64Index_base64Char _ (by omega)]
    simp only []
    rw [if_neg (by
      intro hcon
      exact base64Char_ne_pad _ (by omega) hcon.1)]
    rw [if_pos (by simp)]
    rw [base64Index_base64Char _ (by omega)]
    simp only []
    congr 1
    congr 1
    · omega
    · congr 1
      omega
  | case4 a b c rest ih =>
    intro h
    have ha : a < 256 := h a (by simp)
    have hb : b < 256 := h b (by simp)
    have hc : c < 256 := h c (by simp)
    have hrest : ∀ x ∈ rest, x < 256 := fun x hx => h x (by simp [hx])
    simp only [encodeBase64Chars, decodeBase64Chars]
    rw [base64Index_base64Char _ (by omega), base64Index_base64Char _ (by omega)]
    simp only []
    rw [if_neg (by
      intro hcon
      exact base64Char_ne_pad _ (by omega) hcon.1)]
    rw [if_neg (by
      intro hcon
      exact base64Char_ne_pad _ (by omega) hcon.1)]
    rw [base64Index_base64Char _ (by omega), base64Index_base64Char _ (by omega), ih hrest]
    simp only []
    congr 1
    congr 1
    · omega
    · congr 1
      · omega
      · congr 1
        omega

/-- Lookup misses when no stored key equals the query. -/
theorem lookup_eq_none_of_keys {α : Type} (m : List (Nat × α)) (k : Nat)
    (h : ∀ p ∈ m, p.1 ≠ k) : m.lookup k = none := by
  induction m with
  | nil => rfl
  | cons hd tl ih =>
    have hne : (k == hd.1) = false := by
      simp only [beq_eq_false_iff_ne, ne_eq]
      exact fun hk => h hd (by simp) hk.symm
    simp only [List.lookup, hne]
    exact ih fun p hp => h p (by simp [hp])

/-- JavaScript `Map.prototype.set` appends when the key is fresh. -/
theorem mapSet_of_fresh {α : Type} (m : List (Nat × α)) (k : Nat) (v : α)
    (h : m.lookup k = none) : mapSet m k v = m ++ [(k, v)] := by
  simp [mapSet, h]

/-- Unfolding equation for `createTransformations` on a nonempty list. -/
theorem createTransformations_cons (s : MemStorage) (hd : InsertTransformation × String)
    (tl : List (InsertTransformation × String)) :
    createTransformations s (hd :: tl)
      = ((s.createTransformation hd.1 hd.2).1
            :: (createTransformations (s.createTransformation hd.1 hd.2).2 tl).1,
         (createTransformations (s.createTransformation hd.1 hd.2).2 tl).2) :=
  rfl

/-- Sequential creation from a store whose transformation keys are below
the counter: the map grows by the created records in order, their
identifiers are consecutive from the counter, the counter advances by
the number of records, and each record carries its insert's fields and
timestamp. -/
theorem createTransformations_spec (l : List (InsertTransformation × String)) (s : MemStorage)
    (hkeys : ∀ p ∈ s.transformations, p.1 < s.transformationIdCounter) :
    (createTransformations s l).2.transformations
      = s.transformations ++ ((createTransformations s l).1.map (fun t => (t.id, t))) ∧
    (createTransformations s l).1.map Transformation.id
      = List.range' s.transformationIdCounter l.length ∧
    (createTransformations s l).2.transformationIdCounter
      = s.transformationIdCounter + l.length ∧
    (createTransformations s l).1.map (fun t => (t.imageId, t.style, t.transformedUrl, t.createdAt))
      = l.map (fun p => (p.1.imageId, p.1.style, p.1.transformedUrl, p.2)) := by
  induction l generalizing s with
  | nil => simp [createTransformations]
  | cons hd tl ih =>
    have hfresh : s.transformations.lookup s.transformationIdCounter = none :=
      lookup_eq_none_of_keys _ _ fun p hp => Nat.ne_of_lt (hkeys p hp)
    have hmap : (s.createTransformation hd.1 hd.2).2.transformations
        = s.transformations ++ [(s.transformationIdCounter, (s.createTransformation hd.1 hd.2).1)] := by
      simpa [MemStorage.createTransformation] using mapSet_of_fresh _ _ _ hfresh
    have hcounter : (s.createTransformation hd.1 hd.2).2.transformationIdCounter
        = s.transformationIdCounter + 1 := rfl
    have hkeys1 : ∀ p ∈ (s.createTransformation hd.1 hd.2).2.transformations,
        p.1 < (s.createTransformation hd.1 hd.2).2.transformationIdCounter := by
      intro p hp
      rw [hmap] at hp
      rw [hcounter]
      rcases List.mem_append.mp hp with hp | hp
      · exact Nat.lt_succ_of_lt (hkeys p hp)
      · rw [List.mem_singleton.mp hp]
        exact Nat.lt_succ_self _
    obtain ⟨ih1, ih2, ih3, ih4⟩ := ih _ hkeys1
    rw [createTransformations_cons]
    refine ⟨?_, ?_, ?_, ?_⟩
    · simp only [List.map_cons]
      rw [ih1, hmap]
      simp only [List.append_assoc, List.singleton_append]
      rfl
    · simp only [List.map_cons, List.length_cons, List.range'_succ]
      rw [ih2, hcounter]
      rfl
    · simp only [List.length_cons]
      rw [ih3, hcounter]
      omega
    · simp only [List.map_cons]
      rw [ih4]
      rfl

/-- Pipeline success case: when the vision call yields a description that
survives trimming and the generation call yields a URL for the combined
prompt, `transformImage` returns that URL and the only generation call
receives the combined prompt. -/
theorem transformImage_success (caps : Caps) (imageBase64 : String) (style : Style)
    (raw url : String)
    (hdesc : caps.describe visionInstruction (dataUrl imageBase64) = .ok (some raw))
    (hne : jsTrim raw ≠ "")
    (hgen : caps.generate (finalPrompt (STYLE_PROMPTS style) (jsTrim raw)) = .ok (some url)) :
    transformImage caps imageBase64 style = .ok url ∧
    (transformImageRun caps imageBase64 style).generateCalls
      = [finalPrompt (STYLE_PROMPTS style) (jsTrim raw)] := by
  constructor <;>
  · simp only [transformImage, transformImageRun, transformBody, hdesc]
    simp [hne, hgen]

/-- Unfolding equation for `createUsers` on a nonempty list. -/
theorem createUsers_cons (s : MemStorage) (hd : InsertUser) (tl : List InsertUser) :
    createUsers s (hd :: tl)
      = ((s.createUser hd).1 :: (createUsers (s.createUser hd).2 tl).1,
         (createUsers (s.createUser hd).2 tl).2) :=
  rfl

/-- Sequential `createUser` calls from a store whose user keys are below
the counter: map growth, consecutive identifiers, counter advance, and
field preservation. -/
theorem createUsers_spec (l : List InsertUser) (s : MemStorage)
    (hkeys : ∀ p ∈ s.users, p.1 < s.userIdCounter) :
    (createUsers s l).2.users
      = s.users ++ ((createUsers s l).1.map (fun u => (u.id, u))) ∧
    (createUsers s l).1.map User.id = List.range' s.userIdCounter l.length ∧
    (createUsers s l).2.userIdCounter = s.userIdCounter + l.length ∧
    (createUsers s l).1.map (fun u => (u.username, u.password))
      = l.map (fun u => (u.username, u.password)) := by
  induction l generalizing s with
  | nil => simp [createUsers]
  | cons hd tl ih =>
    have hfresh : s.users.lookup s.userIdCounter = none :=
      lookup_eq_none_of_keys _ _ fun p hp => Nat.ne_of_lt (hkeys p hp)
    have hmap : (s.createUser hd).2.users
        = s.users ++ [(s.userIdCounter, (s.createUser hd).1)] := by
      simpa [MemStorage.createUser] using mapSet_of_fresh _ _ _ hfresh
    have hcounter : (s.createUser hd).2.userIdCounter = s.userIdCounter + 1 := rfl
    have hkeys1 : ∀ p ∈ (s.createUser hd).2.users, p.1 < (s.createUser hd).2.userIdCounter := by
      intro p hp
      rw [hmap] at hp
      rw [hcounter]
      rcases List.mem_append.mp hp with hp | hp
      · exact Nat.lt_succ_of_lt (hkeys p hp)
      · rw [List.mem_singleton.mp hp]
        exact Nat.lt_succ_self _
    obtain ⟨ih1, ih2, ih3, ih4⟩ := ih _ hkeys1
    rw [createUsers_cons]
    refine ⟨?_, ?_, ?_, ?_⟩
    · simp only [List.map_cons]
      rw [ih1, hmap]
      simp only [List.append_assoc, List.singleton_append]
      rfl
    · simp only [List.map_cons, List.length_cons, List.range'_succ]
      rw [ih2, hcounter]
      rfl
    · simp only [List.length_cons]
      rw [ih3, hcounter]
      omega
    · simp only [List.map_cons]
      rw [ih4]
      rfl

/-- Unfolding equation for `createImages` on a nonempty list. -/
theorem createImages_cons (s : MemStorage) (hd : InsertImage × String)
    (tl : List (InsertImage × String)) :
    createImages s (hd :: tl)
      = ((s.createImage hd.1 hd.2).1 :: (createImages (s.createImage hd.1 hd.2).2 tl).1,
         (createImages (s.createImage hd.1 hd.2).2 tl).2) :=
  rfl

/-- Sequential `createImage` calls from a store whose image keys are below
the counter: map growth, consecutive identifiers, counter advance, and
field preservation. -/
theorem createImages_spec (l : List (InsertImage × String)) (s : MemStorage)
    (hkeys : ∀ p ∈ s.images, p.1 < s.imageIdCounter) :
    (createImages s l).2.images
      = s.images ++ ((createImages s l).1.map (fun i => (i.id, i))) ∧
    (createImages s l).1.map Image.id = List.range' s.imageIdCounter l.length ∧
    (createImages s l).2.imageIdCounter = s.imageIdCounter + l.length ∧
    (createImages s l).1.map (fun i => (i.originalFilename, i.originalUrl, i.userId, i.createdAt))
      = l.map (fun p => (p.1.originalFilename, p.1.originalUrl, p.1.userId, p.2)) := by
  induction l generalizing s with
  | nil => simp [createImages]
  | cons hd tl ih =>
    have hfresh : s.images.lookup s.imageIdCounter = none :=
      lookup_eq_none_of_keys _ _ fun p hp => Nat.ne_of_lt (hkeys p hp)
    have hmap : (s.createImage hd.1 hd.2).2.images
        = s.images ++ [(s.imageIdCounter, (s.createImage hd.1 hd.2).1)] := by
      simpa [MemStorage.createImage] using mapSet_of_fresh _ _ _ hfresh
    have hcounter : (s.createImage hd.1 hd.2).2.imageIdCounter = s.imageIdCounter + 1 := rfl
    have hkeys1 : ∀ p ∈ (s.createImage hd.1 hd.2).2.images,
        p.1 < (s.createImage hd.1 hd.2).2.imageIdCounter := by
      intro p hp
      rw [hmap] at hp
      rw [hcounter]
      rcases List.mem_append.mp hp with hp | hp
      · exact Nat.lt_succ_of_lt (hkeys p hp)
      · rw [List.mem_singleton.mp hp]
        exact Nat.lt_succ_self _
    obtain ⟨ih1, ih2, ih3, ih4⟩ := ih _ hkeys1
    rw [createImages_cons]
    refine ⟨?_, ?_, ?_, ?_⟩
    · simp only [List.map_cons]
      rw [ih1, hmap]
      simp only [List.append_assoc, List.singleton_append]
      rfl
    · simp only [List.map_cons, List.length_cons, List.range'_succ]
      rw [ih2, hcounter]
      rfl
    · simp only [List.length_cons]
      rw [ih3, hcounter]
      omega
    · simp only [List.map_cons]
      rw [ih4]
      rfl

/-! ## Claims -/

/-- C1, counterexample: the description capability returns the non-empty
description consisting of a single space and the generation capability
returns a URL for every prompt, yet `transformImage` does not return
that URL — the pipeline trims the description to empty and fails. -/
theorem c1_counterexample :
    (" " ≠ "") ∧
    transformImage
        ⟨fun _ _ => .ok (some " "), fun _ => .ok (some "https://example.com/styled.png")⟩
        "imagebytes" Style.anime
      = .error "Failed to transform image: Could not generate description from image." ∧
    transformImage
        ⟨fun _ _ => .ok (some " "), fun _ => .ok (some "https://example.com/styled.png")⟩
        "imagebytes" Style.anime
      ≠ .ok "https://example.com/styled.png" := by
  refine ⟨by decide, rfl, fun h => Except.noConfusion h⟩

/-- C1 (amended): for every image-bytes input and valid style, if the
description capability returns a description that is non-empty after
trimming whitespace and the generation capability returns a URL, then
`transformImage` returns exactly that URL, and the single instruction
passed to the generation capability is the concatenation of the style's
prompt template, the separator introducing the image content to
transform, the trimmed description text, and the closing instruction to
preserve identity, pose, and scene layout — the style template appears
before the description. -/
theorem c1_amended_prompt_order (caps : Caps) (imageBase64 : String) (style : Style)
    (raw url : String)
    (hdesc : caps.describe visionInstruction (dataUrl imageBase64) = .ok (some raw))
    (hne : jsTrim raw ≠ "")
    (hgen : caps.generate (STYLE_PROMPTS style ++ "\n\nHere is the image content to transform:\n" ++ (jsTrim raw) ++ "\n\nPreserve the identity, pose, and scene layout while applying the style.") = .ok (some url)) :
    transformImage caps imageBase64 style = .ok url ∧
    (transformImageRun caps imageBase64 style).generateCalls
      = [STYLE_PROMPTS style ++ "\n\nHere is the image content to transform:\n" ++ (jsTrim raw) ++ "\n\nPreserve the identity, pose, and scene layout while applying the style."] :=
  transformImage_success caps imageBase64 style raw url hdesc hne hgen

/-- C1, witness: the specification's scenario, with the description stub
returning "a smiling person outdoors" and the generation stub returning
a fixed URL. -/
theorem c1_amended_prompt_order_witness :
    (jsTrim "a smiling person outdoors" ≠ "") ∧
    (transformImage
        ⟨fun _ _ => .ok (some "a smiling person outdoors"),
         fun _ => .ok (some "https://example.com/styled.png")⟩
        "imagebytes" Style.anime
      = .ok "https://example.com/styled.png" ∧
    (transformImageRun
        ⟨fun _ _ => .ok (some "a smiling person outdoors"),
         fun _ => .ok (some "https://example.com/styled.png")⟩
        "imagebytes" Style.anime).generateCalls
      = [STYLE_PROMPTS Style.anime ++ "\n\nHere is the image content to transform:\n" ++ (jsTrim "a smiling person outdoors") ++ "\n\nPreserve the identity, pose, and scene layout while applying the style."]) :=
  ⟨by decide,
   c1_amended_prompt_order
     ⟨fun _ _ => .ok (some "a smiling person outdoors"),
      fun _ => .ok (some "https://example.com/styled.png")⟩
     "imagebytes" Style.anime "a smiling person outdoors" "https://example.com/styled.png"
     rfl (by decide) rfl⟩

/-- C2: whenever the description capability returns a missing
(`null` content) or empty description, `transformImage` fails with the
description-unavailable error (wrapped at the pipeline boundary) and the
generation capability is never invoked. -/
theorem c2_empty_description (caps : Caps) (imageBase64 : String) (style : Style)
    (h : caps.describe visionInstruction (dataUrl imageBase64) = .ok none ∨
         caps.describe visionInstruction (dataUrl imageBase64) = .ok (some "")) :
    transformImage caps imageBase64 style
      = .error "Failed to transform image: Could not generate description from image." ∧
    (transformImageRun caps imageBase64 style).generateCalls = [] := by
  have hts : jsTrim "" = "" := by decide
  rcases h with h | h <;>
    exact ⟨by simp [transformImage, transformImageRun, transformBody, h, hts],
           by simp [transformImageRun, transformBody, h, hts]⟩

/-- C2, witness: the description stub returns the empty string. -/
theorem c2_empty_description_witness :
    ((Caps.mk (fun _ _ => .ok (some "")) (fun _ => .ok (some "https://example.com/u.png"))).describe
        visionInstruction (dataUrl "imagebytes") = .ok none ∨
     (Caps.mk (fun _ _ => .ok (some "")) (fun _ => .ok (some "https://example.com/u.png"))).describe
        visionInstruction (dataUrl "imagebytes") = .ok (some "")) ∧
    (transformImage
        ⟨fun _ _ => .ok (some ""), fun _ => .ok (some "https://example.com/u.png")⟩
        "imagebytes" Style.lego
      = .error "Failed to transform image: Could not generate description from image." ∧
    (transformImageRun
        ⟨fun _ _ => .ok (some ""), fun _ => .ok (some "https://example.com/u.png")⟩
        "imagebytes" Style.lego).generateCalls = []) :=
  ⟨Or.inr rfl,
   c2_empty_description
     ⟨fun _ _ => .ok (some ""), fun _ => .ok (some "https://example.com/u.png")⟩
     "imagebytes" Style.lego (Or.inr rfl)⟩

/-- C3, counterexample: a description-stage failure and a
generation-stage failure with the same upstream cause "boom" produce
the identical wrapped error "Failed to transform image: boom" — the
wrapping message is uniform, not the stage-identifying
"failed to describe image" versus "failed to generate image" pair the
claim states. -/
theorem c3_counterexample :
    transformImage
        ⟨fun _ _ => .error "boom", fun _ => .ok (some "https://example.com/ok.png")⟩
        "imagebytes" Style.anime
      = .error "Failed to transform image: boom" ∧
    transformImage
        ⟨fun _ _ => .ok (some "a smiling person outdoors"), fun _ => .error "boom"⟩
        "imagebytes" Style.anime
      = .error "Failed to transform image: boom" ∧
    transformImage
        ⟨fun _ _ => .error "boom", fun _ => .ok (some "https://example.com/ok.png")⟩
        "imagebytes" Style.anime
      = transformImage
          ⟨fun _ _ => .ok (some "a smiling person outdoors"), fun _ => .error "boom"⟩
          "imagebytes" Style.anime := by
  refine ⟨rfl, rfl, rfl⟩

/-- C3 (amended): every external-call failure is caught at the pipeline
boundary and re-raised as a single failure carrying the original cause
message; the wrapping prefix is the uniform
"Failed to transform image: " for both stages rather than a
stage-identifying message. -/
theorem c3_amended_wrapping (caps : Caps) (imageBase64 : String) (style : Style) (e : String) :
    (caps.describe visionInstruction (dataUrl imageBase64) = .error e →
      transformImage caps imageBase64 style = .error ("Failed to transform image: " ++ e)) ∧
    (∀ raw, caps.describe visionInstruction (dataUrl imageBase64) = .ok (some raw) →
      jsTrim raw ≠ "" →
      caps.generate (finalPrompt (STYLE_PROMPTS style) (jsTrim raw)) = .error e →
      transformImage caps imageBase64 style = .error ("Failed to transform image: " ++ e)) := by
  constructor
  · intro h
    simp [transformImage, transformImageRun, transformBody, h]
  · intro raw hdesc hne hgen
    simp only [transformImage, transformImageRun, transformBody, hdesc]
    simp [hne, hgen]

/-- C3, witness: both stages instantiated with the upstream cause
"boom". -/
theorem c3_amended_wrapping_witness :
    ((Caps.mk (fun _ _ => Except.error "boom") (fun _ => .ok (some "https://example.com/ok.png"))).describe
        visionInstruction (dataUrl "imagebytes") = .error "boom") ∧
    transformImage
        ⟨fun _ _ => .error "boom", fun _ => .ok (some "https://example.com/ok.png")⟩
        "imagebytes" Style.ghibli
      = .error ("Failed to transform image: " ++ "boom") ∧
    transformImage
        ⟨fun _ _ => .ok (some "a smiling person outdoors"), fun _ => .error "boom"⟩
        "imagebytes" Style.ghibli
      = .error ("Failed to transform image: " ++ "boom") :=
  ⟨rfl,
   (c3_amended_wrapping
     ⟨fun _ _ => .error "boom", fun _ => .ok (some "https://example.com/ok.png")⟩
     "imagebytes" Style.ghibli "boom").1 rfl,
   (c3_amended_wrapping
     ⟨fun _ _ => .ok (some "a smiling person outdoors"), fun _ => .error "boom"⟩
     "imagebytes" Style.ghibli "boom").2 "a smiling person outdoors" rfl (by decide) rfl⟩

/-- C4: each of the five style identifiers resolves to a non-empty prompt
template; any other string resolves to nothing (the schema parse fails),
and a request with an invalid style is rejected with 400
"Invalid style selected" before any external capability call is made. -/
theorem c4_style_catalog :
    (∀ st : Style, stylePromptsLookup (styleId st) = some (STYLE_PROMPTS st) ∧
      STYLE_PROMPTS st ≠ "") ∧
    (∀ s : String, (∀ st : Style, styleId st ≠ s) → stylePromptsLookup s = none) ∧
    (∀ (caps : Caps) (s : String) (imageBase64? : Option String), styleOfString s = none →
      (transformRoute caps (some s) imageBase64?).response = .badRequest "Invalid style selected" ∧
      (transformRoute caps (some s) imageBase64?).describeCalls = [] ∧
      (transformRoute caps (some s) imageBase64?).generateCalls = []) := by
  refine ⟨fun st => by cases st <;> exact ⟨rfl, by decide⟩, ?_, ?_⟩
  · intro s hs
    simp only [stylePromptsLookup, styleOfString]
    split_ifs with h1 h2 h3 h4 h5
    · exact absurd h1.symm (hs .lego)
    · exact absurd h2.symm (hs .anime)
    · exact absurd h3.symm (hs .ghibli)
    · exact absurd h4.symm (hs .futuristic)
    · exact absurd h5.symm (hs .vintage)
    · rfl
  · intro caps s imageBase64? h
    refine ⟨?_, ?_, ?_⟩ <;> simp [transformRoute, h]

/-- C4, witness: "anime" resolves to its template, the unknown identifier
"cubism" resolves to nothing, and a transform request with style
"cubism" is rejected with no capability call. -/
theorem c4_style_catalog_witness :
    (stylePromptsLookup (styleId Style.anime) = some (STYLE_PROMPTS Style.anime)) ∧
    ((∀ st : Style, styleId st ≠ "cubism") ∧ stylePromptsLookup "cubism" = none) ∧
    (styleOfString "cubism" = none ∧
      (transformRoute
          ⟨fun _ _ => .ok (some "a smiling person outdoors"),
           fun _ => .ok (some "https://example.com/u.png")⟩
          (some "cubism") (some "imagebytes")).response = .badRequest "Invalid style selected" ∧
      (transformRoute
          ⟨fun _ _ => .ok (some "a smiling person outdoors"),
           fun _ => .ok (some "https://example.com/u.png")⟩
          (some "cubism") (some "imagebytes")).generateCalls = []) :=
  ⟨(c4_style_catalog.1 Style.anime).1,
   ⟨fun st => by cases st <;> decide,
    c4_style_catalog.2.1 "cubism" (fun st => by cases st <;> decide)⟩,
   ⟨by decide,
    (c4_style_catalog.2.2
      ⟨fun _ _ => .ok (some "a smiling person outdoors"),
       fun _ => .ok (some "https://example.com/u.png")⟩
      "cubism" (some "imagebytes") (by decide)).1,
    (c4_style_catalog.2.2
      ⟨fun _ _ => .ok (some "a smiling person outdoors"),
       fun _ => .ok (some "https://example.com/u.png")⟩
      "cubism" (some "imagebytes") (by decide)).2.2⟩⟩

/-- C5: for each of the three entity kinds, creating N records from the
freshly constructed store yields identifiers 1, 2, ..., N — distinct and
strictly increasing — and a lookup of any identifier outside that range
returns absent. -/
theorem c5_record_store_ids :
    (∀ l : List InsertUser,
      (createUsers MemStorage.init l).1.map User.id = List.range' 1 l.length ∧
      ((createUsers MemStorage.init l).1.map User.id).Pairwise (· < ·) ∧
      ∀ id, id ∉ List.range' 1 l.length → (createUsers MemStorage.init l).2.getUser id = none) ∧
    (∀ l : List (InsertImage × String),
      (createImages MemStorage.init l).1.map Image.id = List.range' 1 l.length ∧
      ((createImages MemStorage.init l).1.map Image.id).Pairwise (· < ·) ∧
      ∀ id, id ∉ List.range' 1 l.length → (createImages MemStorage.init l).2.getImage id = none) ∧
    (∀ l : List (InsertTransformation × String),
      (createTransformations MemStorage.init l).1.map Transformation.id = List.range' 1 l.length ∧
      ((createTransformations MemStorage.init l).1.map Transformation.id).Pairwise (· < ·) ∧
      ∀ id, id ∉ List.range' 1 l.length →
        (createTransformations MemStorage.init l).2.getTransformation id = none) := by
  refine ⟨fun l => ?_, fun l => ?_, fun l => ?_⟩
  · obtain ⟨h1, h2, _, _⟩ := createUsers_spec l MemStorage.init (by simp [MemStorage.init])
    have h2' : (createUsers MemStorage.init l).1.map User.id = List.range' 1 l.length := h2
    refine ⟨h2', by rw [h2']; exact List.pairwise_lt_range' 1 l.length, ?_⟩
    intro id hid
    refine lookup_eq_none_of_keys _ _ ?_
    rw [h1]
    intro p hp
    rcases List.mem_append.mp hp with hp | hp
    · simp [MemStorage.init] at hp
    · obtain ⟨u, hu, rfl⟩ := List.mem_map.mp hp
      have hmem : u.id ∈ (createUsers MemStorage.init l).1.map User.id :=
        List.mem_map_of_mem _ hu
      rw [h2'] at hmem
      exact fun hcon => hid (hcon ▸ hmem)
  · obtain ⟨h1, h2, _, _⟩ := createImages_spec l MemStorage.init (by simp [MemStorage.init])
    have h2' : (createImages MemStorage.init l).1.map Image.id = List.range' 1 l.length := h2
    refine ⟨h2', by rw [h2']; exact List.pairwise_lt_range' 1 l.length, ?_⟩
    intro id hid
    refine lookup_eq_none_of_keys _ _ ?_
    rw [h1]
    intro p hp
    rcases List.mem_append.mp hp with hp | hp
    · simp [MemStorage.init] at hp
    · obtain ⟨i, hi, rfl⟩ := List.mem_map.mp hp
      have hmem : i.id ∈ (createImages MemStorage.init l).1.map Image.id :=
        List.mem_map_of_mem _ hi
      rw [h2'] at hmem
      exact fun hcon => hid (hcon ▸ hmem)
  · obtain ⟨h1, h2, _, _⟩ :=
      createTransformations_spec l MemStorage.init (by simp [MemStorage.init])
    have h2' : (createTransformations MemStorage.init l).1.map Transformation.id
        = List.range' 1 l.length := h2
    refine ⟨h2', by rw [h2']; exact List.pairwise_lt_range' 1 l.length, ?_⟩
    intro id hid
    refine lookup_eq_none_of_keys _ _ ?_
    rw [h1]
    intro p hp
    rcases List.mem_append.mp hp with hp | hp
    · simp [MemStorage.init] at hp
    · obtain ⟨t, ht, rfl⟩ := List.mem_map.mp hp
      have hmem : t.id ∈ (createTransformations MemStorage.init l).1.map Transformation.id :=
        List.mem_map_of_mem _ ht
      rw [h2'] at hmem
      exact fun hcon => hid (hcon ▸ hmem)

/-- C5, witness: two users, one image and one transformation created from
the fresh store receive identifiers from 1, and lookups of never-created
identifiers return absent. -/
theorem c5_record_store_ids_witness :
    ((createUsers MemStorage.init [⟨"a", "p"⟩, ⟨"b", "q"⟩]).1.map User.id = List.range' 1 2) ∧
    ((5 : Nat) ∉ List.range' 1 2) ∧
    ((createUsers MemStorage.init [⟨"a", "p"⟩, ⟨"b", "q"⟩]).2.getUser 5 = none) ∧
    ((createImages MemStorage.init [(⟨"f.png", "u", none⟩, "t1")]).2.getImage 3 = none) ∧
    ((createTransformations MemStorage.init [(⟨1, "anime", "u"⟩, "t1")]).2.getTransformation 2
      = none) :=
  ⟨(c5_record_store_ids.1 [⟨"a", "p"⟩, ⟨"b", "q"⟩]).1,
   by decide,
   (c5_record_store_ids.1 [⟨"a", "p"⟩, ⟨"b", "q"⟩]).2.2 5 (by decide),
   (c5_record_store_ids.2.1 [(⟨"f.png", "u", none⟩, "t1")]).2.2 3 (by decide),
   (c5_record_store_ids.2.2 [(⟨1, "anime", "u"⟩, "t1")]).2.2 2 (by decide)⟩

/-- C6: `getTransformationsByImageId` returns exactly the created
transformations whose `imageId` equals the argument, in creation order,
and the result length is unbounded — creating n matching records yields
n results. -/
theorem c6_list_by_image_id :
    (∀ (l : List (InsertTransformation × String)) (imageId : Nat),
      (createTransformations MemStorage.init l).2.getTransformationsByImageId imageId
        = (createTransformations MemStorage.init l).1.filter (fun t => t.imageId == imageId)) ∧
    (∀ (n imageId : Nat) (style url now : String),
      ((createTransformations MemStorage.init
          (List.replicate n (⟨imageId, style, url⟩, now))).2.getTransformationsByImageId
        imageId).length = n) := by
  have main : ∀ (l : List (InsertTransformation × String)) (imageId : Nat),
      (createTransformations MemStorage.init l).2.getTransformationsByImageId imageId
        = (createTransformations MemStorage.init l).1.filter (fun t => t.imageId == imageId) := by
    intro l imageId
    obtain ⟨h1, _, _, _⟩ :=
      createTransformations_spec l MemStorage.init (by simp [MemStorage.init])
    rw [MemStorage.getTransformationsByImageId, h1]
    rw [show MemStorage.init.transformations = [] from rfl, List.nil_append, List.map_map]
    rw [show (Prod.snd ∘ fun t : Transformation => (t.id, t)) = fun t => t from rfl, List.map_id']
  refine ⟨main, ?_⟩
  intro n imageId style url now
  obtain ⟨_, h2, _, h4⟩ := createTransformations_spec
    (List.replicate n (⟨imageId, style, url⟩, now)) MemStorage.init (by simp [MemStorage.init])
  rw [main]
  have hall : ∀ t ∈ (createTransformations MemStorage.init
      (List.replicate n (⟨imageId, style, url⟩, now))).1, t.imageId = imageId := by
    intro t ht
    have hmem : (t.imageId, t.style, t.transformedUrl, t.createdAt)
        ∈ (createTransformations MemStorage.init
            (List.replicate n (⟨imageId, style, url⟩, now))).1.map
          (fun t => (t.imageId, t.style, t.transformedUrl, t.createdAt)) :=
      List.mem_map_of_mem _ ht
    rw [h4, List.map_replicate] at hmem
    exact congrArg (fun q => q.1) (List.eq_of_mem_replicate hmem)
  rw [List.filter_eq_self.mpr (fun t ht => by simp [hall t ht])]
  have hlen := congrArg List.length h2
  simpa using hlen

/-- C7: any payload strictly larger than 5 MiB is rejected by both upload
validators regardless of its declared MIME type, with the size violation
reported first; any declared MIME type outside JPEG/PNG/WEBP is rejected
by both validators regardless of size; each rejection carries its
human-readable reason. -/
theorem c7_upload_validation :
    (∀ (size : Nat) (mimeType : String), 5 * 1024 * 1024 < size →
      imageUploadSchemaAccepts size mimeType = false ∧
      multerAccepts size mimeType = false ∧
      (imageUploadIssues size mimeType).head? = some "Image size should not exceed 5MB") ∧
    (∀ (size : Nat) (mimeType : String), mimeType ∉ ["image/jpeg", "image/png", "image/webp"] →
      imageUploadSchemaAccepts size mimeType = false ∧
      multerAccepts size mimeType = false ∧
      "Please upload a valid image (JPG, PNG, WEBP)" ∈ imageUploadIssues size mimeType) := by
  constructor
  · intro size mimeType hsize
    have h1 : ¬ size < 5 * 1024 * 1024 := by omega
    refine ⟨?_, ?_, ?_⟩
    · simp [imageUploadSchemaAccepts, imageUploadIssues, h1]
    · have h2 : multerSizeAdmits size = false := by
        simp only [multerSizeAdmits, decide_eq_false_iff_not]
        omega
      simp [multerAccepts, h2]
    · simp [imageUploadIssues, h1]
  · intro size mimeType hmime
    refine ⟨?_, ?_, ?_⟩
    · simp [imageUploadSchemaAccepts, imageUploadIssues, hmime]
    · have h2 : (match multerFileFilter mimeType with
          | .ok _ => true
          | .error _ => false) = false := by
        rw [multerFileFilter]
        split_ifs with hstart
        · rfl
        · rfl
      simp [multerAccepts, h2]
    · simp [imageUploadIssues, hmime]

/-- C7, witness: the specification's 6 MiB JPEG is rejected for size, and
a 100-byte text/plain payload is rejected for MIME type. -/
theorem c7_upload_validation_witness :
    ((5 * 1024 * 1024 : Nat) < 6 * 1024 * 1024) ∧
    (imageUploadSchemaAccepts (6 * 1024 * 1024) "image/jpeg" = false ∧
      multerAccepts (6 * 1024 * 1024) "image/jpeg" = false ∧
      (imageUploadIssues (6 * 1024 * 1024) "image/jpeg").head?
        = some "Image size should not exceed 5MB") ∧
    ("text/plain" ∉ ["image/jpeg", "image/png", "image/webp"]) ∧
    (imageUploadSchemaAccepts 100 "text/plain" = false ∧
      multerAccepts 100 "text/plain" = false ∧
      "Please upload a valid image (JPG, PNG, WEBP)" ∈ imageUploadIssues 100 "text/plain") :=
  ⟨by decide,
   c7_upload_validation.1 (6 * 1024 * 1024) "image/jpeg" (by decide),
   by decide,
   c7_upload_validation.2 100 "text/plain" (by decide)⟩

/-- C8: for every uploaded payload of bytes, the upload handler returns
the base64 encoding of exactly the raw bytes received, decoding that
string yields the original bytes, and hence the decoded length equals
the original byte length. -/
theorem c8_base64_roundtrip (file : UploadedFile) (h : ∀ x ∈ file.buffer, x < 256) :
    ∃ b64, uploadRoute (some file) = .success b64 file.originalname ∧
      decodeBase64 b64 = some file.buffer ∧
      ∀ bytes, decodeBase64 b64 = some bytes → bytes.length = file.buffer.length := by
  refine ⟨encodeBase64 file.buffer, rfl, ?_, ?_⟩
  · exact decodeBase64Chars_encodeBase64Chars file.buffer h
  · intro bytes hb
    rw [show decodeBase64 (encodeBase64 file.buffer) = some file.buffer from
      decodeBase64Chars_encodeBase64Chars file.buffer h] at hb
    injection hb with hb
    rw [← hb]

/-- C8, witness: a concrete three-byte upload round-trips through base64
with the original length. -/
theorem c8_base64_roundtrip_witness :
    (∀ x ∈ [77, 97, 110], x < 256) ∧
    (∃ b64, uploadRoute (some ⟨[77, 97, 110], "photo.png"⟩) = .success b64 "photo.png" ∧
      decodeBase64 b64 = some [77, 97, 110] ∧
      ∀ bytes, decodeBase64 b64 = some bytes → bytes.length = ([77, 97, 110] : List Nat).length) :=
  ⟨by decide, c8_base64_roundtrip ⟨[77, 97, 110], "photo.png"⟩ (by decide)⟩

/-- C9: the store does not enforce username uniqueness — two `createUser`
calls with the same username both insert, leaving two distinct records
(ids 1 and 2) that share the username "alice", contrary to the unique
username declared in the schema. -/
theorem c9_duplicate_username :
    (((MemStorage.init.createUser ⟨"alice", "pw1"⟩).2.createUser ⟨"alice", "pw2"⟩).2.getUser 1
        = some ⟨1, "alice", "pw1"⟩) ∧
    (((MemStorage.init.createUser ⟨"alice", "pw1"⟩).2.createUser ⟨"alice", "pw2"⟩).2.getUser 2
        = some ⟨2, "alice", "pw2"⟩) ∧
    (1 : Nat) ≠ 2 ∧
    (User.mk 1 "alice" "pw1").username = (User.mk 2 "alice" "pw2").username := by
  refine ⟨by decide, by decide, by decide, rfl⟩

/-- C10: at exactly 5 MiB with an allowed MIME type the two validators
disagree — the shared zod schema rejects (strict bound) while the multer
configuration admits (inclusive limit). -/
theorem c10_boundary_disagreement :
    imageUploadSchemaAccepts (5 * 1024 * 1024) "image/png" = false ∧
    imageUploadIssues (5 * 1024 * 1024) "image/png" = ["Image size should not exceed 5MB"] ∧
    multerAccepts (5 * 1024 * 1024) "image/png" = true := by
  refine ⟨by decide, by decide, by decide⟩

end Silkify
